import Mathlib

/-!
Shallow embedding of `src/reference/firmware-update-reference.js` from the
KLVR firmware updater. Asynchronous callback-style HTTP code is embedded as
pure functions: each network-calling JS function is split into the request it
constructs (a pure value mirroring its `options` object plus the body it
writes) and a result handler mapping the wire-level outcome of the call to the
value the promise resolves or rejects with. The orchestrator is embedded as a
function from an environment (a device oracle answering each call in sequence,
a model of `JSON.parse`, and a file-system oracle) to the trace of device
calls and timed waits it performs together with its final result.
-/

namespace FirmwareUpdater

/-- Model of a JavaScript value as produced by `JSON.parse` (no `undefined`:
a missing object field is modelled as `Option.none` at access sites). -/
inductive JSVal where
  | vnull : JSVal
  | vbool : Bool → JSVal
  | vnum : Int → JSVal
  | vstr : String → JSVal
  | vobj : List (String × JSVal) → JSVal
  | varr : List JSVal → JSVal

/-- JavaScript truthiness of a defined value. -/
def truthyV : JSVal → Bool
  | .vnull => false
  | .vbool b => b
  | .vnum n => n != 0
  | .vstr s => s != ""
  | .vobj _ => true
  | .varr _ => true

/-- JavaScript truthiness where `none` stands for `undefined`. -/
def truthy : Option JSVal → Bool
  | none => false
  | some v => truthyV v

/-- JavaScript `a || b` on possibly-undefined values. -/
def jsOr (a b : Option JSVal) : Option JSVal :=
  if truthy a then a else b

/-- JavaScript `a || b` where the right operand is a defined value. -/
def jsOrV (a : Option JSVal) (b : JSVal) : JSVal :=
  match a with
  | some v => if truthyV v then v else b
  | none => b

/-- JavaScript property access `v.k`: throws (`Except.error`) on `null`,
yields `undefined` (`none`) on primitives and missing keys. -/
def JSVal.get (v : JSVal) (k : String) : Except Unit (Option JSVal) :=
  match v with
  | .vnull => .error ()
  | .vobj fs => .ok ((fs.find? (fun p => p.1 == k)).map Prod.snd)
  | _ => .ok none

/-- JavaScript optional chaining `o?.k`: `undefined` when `o` is
`null`/`undefined`, plain (never-throwing) access otherwise. -/
def optGet (o : Option JSVal) (k : String) : Option JSVal :=
  match o with
  | none => none
  | some .vnull => none
  | some (.vobj fs) => (fs.find? (fun p => p.1 == k)).map Prod.snd
  | some _ => none

/-- Whether `needle` starts `hay` (character lists). -/
def startsWithL : List Char → List Char → Bool
  | _, [] => true
  | [], _ :: _ => false
  | a :: as, b :: bs => a == b && startsWithL as bs

/-- Whether `needle` occurs contiguously in `hay` (character lists);
model of JavaScript `String.prototype.includes`. -/
def containsL (hay needle : List Char) : Bool :=
  match hay with
  | [] => needle.isEmpty
  | _ :: t => startsWithL hay needle || containsL t needle

/-- String containment, model of `s.includes(t)`. -/
def containsStr (s t : String) : Bool :=
  containsL s.data t.data

/-- Model of `s.startsWith(p)`. -/
def jsStartsWith (s p : String) : Bool :=
  startsWithL s.data p.data

/-- Whether `needle` ends `hay` (character lists). -/
def endsWithL (hay needle : List Char) : Bool :=
  startsWithL hay.reverse needle.reverse

/-- Model of `s.endsWith(p)`. -/
def jsEndsWith (s p : String) : Bool :=
  endsWithL s.data p.data

/-- ASCII lowering of one character, model of JavaScript lowering on the
ASCII range (the only range the vendor check needs). -/
def charToLower (c : Char) : Char :=
  if 65 ≤ c.toNat && c.toNat ≤ 90 then Char.ofNat (c.toNat + 32) else c

/-- Model of `s.toLowerCase()`. -/
def strToLower (s : String) : String :=
  String.mk (s.data.map charToLower)

/-- JavaScript `String.prototype.toLowerCase` as a method lookup: defined on
strings only; on any other value the lookup throws. -/
def toLowerCaseE : JSVal → Except Unit String
  | .vstr s => .ok (strToLower s)
  | _ => .error ()

/-- The fixed endpoint paths of `CONFIG.ENDPOINTS`. -/
structure Endpoints where
  FIRMWARE_CHARGER : String
  FIRMWARE_REAR : String
  REBOOT : String
  INFO : String
deriving Repr, DecidableEq

/-- The static configuration object `CONFIG`. -/
structure Config where
  DEFAULT_PORT : Nat
  FIRMWARE_PROCESSING_WAIT : Nat
  SEND_REBOOT_WAIT : Nat
  MAIN_BOARD_REBOOT_WAIT : Nat
  REAR_BOARD_REBOOT_WAIT : Nat
  ENDPOINTS : Endpoints
deriving Repr, DecidableEq

/-- The configuration constants of the source, verbatim. -/
def CONFIG : Config :=
  { DEFAULT_PORT := 8000
    FIRMWARE_PROCESSING_WAIT := 7000
    SEND_REBOOT_WAIT := 1500
    MAIN_BOARD_REBOOT_WAIT := 7000
    REAR_BOARD_REBOOT_WAIT := 20000
    ENDPOINTS :=
      { FIRMWARE_CHARGER := "/api/v2/device/firmware_charger"
        FIRMWARE_REAR := "/api/v2/device/firmware_rear"
        REBOOT := "/api/v2/device/reboot"
        INFO := "/api/v2/device/info" } }

/-- The `options` object handed to `http.request`, together with the optional
`Content-Length` header and socket timeout. -/
structure HttpRequest where
  hostname : String
  port : Nat
  path : String
  method : String
  contentLength : Option Nat
  timeout : Option Nat
deriving Repr, DecidableEq

/-- Wire-level outcome of one HTTP call as seen by the requesting callback:
either the request errored at the network level, or a response arrived. -/
inductive CallResult where
  | netError : String → CallResult
  | response : Nat → String → String → CallResult
deriving Repr, DecidableEq

/-- The `HttpOutcome` record resolved by `uploadFirmware`/`rebootDevice`. -/
structure HttpOutcome where
  ok : Bool
  status : Nat
  statusText : String
  data : String
deriving Repr, DecidableEq

/-- The identity object resolved by `testDeviceConnection` on acceptance
(`firmwareVersion` is `none` when the field is absent, i.e. `undefined`). -/
structure DeviceIdentity where
  ip : String
  deviceName : JSVal
  firmwareVersion : Option JSVal
  serialNumber : JSVal

/-- Wire-level event of the probe: connection error, socket timeout, or a
complete response body. -/
inductive ProbeEvent where
  | netError : ProbeEvent
  | timeout : ProbeEvent
  | response : String → ProbeEvent

/-- The `options` object built by `testDeviceConnection` (GET on the info
endpoint, 3000 ms socket timeout). -/
def testConnectionRequest (ip : String) : HttpRequest :=
  { hostname := ip
    port := CONFIG.DEFAULT_PORT
    path := CONFIG.ENDPOINTS.INFO
    method := "GET"
    contentLength := none
    timeout := some 3000 }

/-- Body of the `try` block in the end-of-response callback of
`testDeviceConnection`; an `Except.error` is any thrown JavaScript exception, caught by the
enclosing `catch` which resolves `null`. -/
def probeCore (ip : String) (info : JSVal) : Except Unit (Option DeviceIdentity) :=
  match info.get "deviceName" with
  | .error e => .error e
  | .ok dn1 =>
    match info.get "name" with
    | .error e => .error e
    | .ok dn2 =>
      let deviceName := jsOr dn1 dn2
      if truthy deviceName then
        match deviceName with
        | some v =>
          match toLowerCaseE v with
          | .error e => .error e
          | .ok lower =>
            if containsStr lower "klvr" then
              match info.get "firmwareVersion" with
              | .error e => .error e
              | .ok fw =>
                match info.get "serialNumber" with
                | .error e => .error e
                | .ok sn =>
                  match info.get "ip" with
                  | .error e => .error e
                  | .ok ipField =>
                    .ok (some
                      { ip := ip
                        deviceName := v
                        firmwareVersion := fw
                        serialNumber :=
                          jsOrV sn (jsOrV (optGet ipField "macAddress") (.vstr "Unknown")) })
            else .ok none
        | none => .ok none
      else .ok none

/-- Model of `testDeviceConnection`: `parse` models `JSON.parse` (`none` when
it throws), `ev` is the wire-level event of the single GET. The promise only
ever resolves — with an identity or `null` — and never rejects. -/
def testDeviceConnection (parse : String → Option JSVal) (ip : String)
    (ev : ProbeEvent) : Option DeviceIdentity :=
  match ev with
  | .netError => none
  | .timeout => none
  | .response body =>
    match parse body with
    | none => none
    | some info =>
      match probeCore ip info with
      | .error _ => none
      | .ok r => r

/-- The `options` object built by `getDeviceInfo` (GET, no timeout). -/
def getDeviceInfoRequest (deviceIp : String) : HttpRequest :=
  { hostname := deviceIp
    port := CONFIG.DEFAULT_PORT
    path := CONFIG.ENDPOINTS.INFO
    method := "GET"
    contentLength := none
    timeout := none }

/-- Result handler of `getDeviceInfo`: rejects on a network error, otherwise
parses the body as JSON, logs `info.firmwareVersion` (which throws inside the
same `try` when `info` is `null`, turning into the parse-failure rejection)
and resolves the parsed object — the HTTP status code of the response is never
inspected. -/
def getDeviceInfoResult (parse : String → Option JSVal) (r : CallResult) :
    Except String JSVal :=
  match r with
  | .netError m => .error m
  | .response _ _ body =>
    match parse body with
    | some info =>
      match info.get "firmwareVersion" with
      | .ok _ => .ok info
      | .error _ => .error "Failed to parse device info response"
    | none => .error "Failed to parse device info response"

/-- The `options` object built by `uploadFirmware`, paired with the body it
writes: endpoint chosen by board, `Content-Length` set to the byte
length of the payload, raw firmware bytes as body. -/
def uploadFirmwareRequest (deviceIp : String) (firmware : List Nat)
    (isMainBoard : Bool) : HttpRequest × List Nat :=
  ({ hostname := deviceIp
     port := CONFIG.DEFAULT_PORT
     path := if isMainBoard then CONFIG.ENDPOINTS.FIRMWARE_CHARGER
             else CONFIG.ENDPOINTS.FIRMWARE_REAR
     method := "POST"
     contentLength := some firmware.length
     timeout := none }, firmware)

/-- Result handler of `uploadFirmware`: rejects on a network error; any
response — whatever its status — resolves an outcome with `ok` true exactly
when the status is 200. -/
def uploadFirmwareResult (r : CallResult) : Except String HttpOutcome :=
  match r with
  | .netError m => .error m
  | .response st stx body =>
    .ok { ok := st == 200, status := st, statusText := stx, data := body }

/-- The `options` object built by `rebootDevice`, paired with the body it
writes: board name as the `board` query parameter and as the literal body,
`Content-Length` hardcoded to 4. -/
def rebootDeviceRequest (deviceIp board : String) : HttpRequest × String :=
  ({ hostname := deviceIp
     port := CONFIG.DEFAULT_PORT
     path := CONFIG.ENDPOINTS.REBOOT ++ "?board=" ++ board
     method := "POST"
     contentLength := some 4
     timeout := none }, board)

/-- Result handler of `rebootDevice`: same shape as in the uploader. -/
def rebootDeviceResult (r : CallResult) : Except String HttpOutcome :=
  match r with
  | .netError m => .error m
  | .response st stx body =>
    .ok { ok := st == 200, status := st, statusText := stx, data := body }

/-- The bundle of chosen firmware paths returned by the locator. -/
structure FirmwareBundle where
  main : String
  rear : String
deriving Repr, DecidableEq

/-- Filter predicate for main-board firmware filenames. -/
def isMainFirmwareName (f : String) : Bool :=
  jsStartsWith f "main_" && jsEndsWith f ".signed.bin"

/-- Filter predicate for rear-board firmware filenames. -/
def isRearFirmwareName (f : String) : Bool :=
  jsStartsWith f "rear_" && jsEndsWith f ".signed.bin"

/-- Lexicographic order on character lists by code point, the comparison
underlying the default string sort of JavaScript. -/
def charListLe : List Char → List Char → Bool
  | [], _ => true
  | _ :: _, [] => false
  | a :: as, b :: bs =>
    if a.toNat < b.toNat then true
    else if b.toNat < a.toNat then false
    else charListLe as bs

/-- The default string comparison of JavaScript `Array.prototype.sort`:
plain lexicographic code-unit order. -/
def strLe (a b : String) : Bool :=
  charListLe a.data b.data

/-- Propositional form of `strLe`, for use with `List.insertionSort`. -/
def strLeRel (a b : String) : Prop :=
  strLe a b = true

instance : DecidableRel strLeRel := fun a b =>
  inferInstanceAs (Decidable (strLe a b = true))

/-- Model of the JavaScript `.sort()` call on an array of strings. -/
def sortStrings (l : List String) : List String :=
  List.insertionSort strLeRel l

/-- The name selected from a filtered set: sort ascending, reverse, take the
first — i.e. the greatest name under the sort order. -/
def latestOf (l : List String) : String :=
  (sortStrings l).reverse.headD ""

/-- Model of `path.join`. -/
def pathJoin (a b : String) : String :=
  a ++ "/" ++ b

/-- File-system oracle for the locator: the directory listing (or the error
`readdir` rejects with) and the outcome of `fs.access` per path. -/
structure FsEnv where
  readdir : Except String (List String)
  access : String → Except String Unit

/-- Model of `findLatestFirmwareFiles`: lists the firmware directory, filters
and sorts each category descending, takes the first name of each, verifies
access, and wraps any failure in the catch-all message. -/
def findLatestFirmwareFiles (fs : FsEnv) (firmwareDir : String) :
    Except String FirmwareBundle :=
  match fs.readdir with
  | .error m => .error ("Failed to find firmware files: " ++ m)
  | .ok files =>
    let mainFiles := (sortStrings (files.filter isMainFirmwareName)).reverse
    let rearFiles := (sortStrings (files.filter isRearFirmwareName)).reverse
    if mainFiles.isEmpty then
      .error "Failed to find firmware files: No main firmware files found in firmware/ directory"
    else if rearFiles.isEmpty then
      .error "Failed to find firmware files: No rear firmware files found in firmware/ directory"
    else
      let mainPath := pathJoin firmwareDir (mainFiles.headD "")
      let rearPath := pathJoin firmwareDir (rearFiles.headD "")
      match fs.access mainPath with
      | .error m => .error ("Failed to find firmware files: " ++ m)
      | .ok _ =>
        match fs.access rearPath with
        | .error m => .error ("Failed to find firmware files: " ++ m)
        | .ok _ => .ok { main := mainPath, rear := rearPath }

/-- One HTTP call of the orchestrator, as observed by the device. -/
inductive DeviceCall where
  | infoFetch : DeviceCall
  | upload : Bool → List Nat → DeviceCall
  | reboot : String → DeviceCall
deriving Repr, DecidableEq

/-- One observable step of the orchestrator: a device call or a timed wait
(milliseconds). -/
inductive Event where
  | call : DeviceCall → Event
  | wait : Nat → Event
deriving Repr, DecidableEq

/-- Environment of the orchestrator: the device oracle (answering the n-th
call, counted from 0, aimed at a hostname), the `JSON.parse` model, and the
file-system read oracle. -/
structure Env where
  respond : String → Nat → DeviceCall → CallResult
  parse : String → Option JSVal
  readFile : String → Except String (List Nat)

/-- Model of `executeFirmwareUpdate`: runs the linear update sequence against
the environment, returning the trace of device calls and waits it performed
together with its result (`Except.error` is the rejection the caller sees). -/
def executeFirmwareUpdate (env : Env)
    (deviceIp mainFirmwarePath rearFirmwarePath : String) :
    List Event × Except String Unit :=
  let t0 : List Event := [.call .infoFetch]
  match getDeviceInfoResult env.parse (env.respond deviceIp 0 .infoFetch) with
  | .error m => (t0, .error m)
  | .ok _deviceInfo =>
    match env.readFile mainFirmwarePath with
    | .error m => (t0, .error m)
    | .ok mainFirmware =>
      match env.readFile rearFirmwarePath with
      | .error m => (t0, .error m)
      | .ok rearFirmware =>
        let t1 := t0 ++ [.call (.upload true mainFirmware)]
        match uploadFirmwareResult (env.respond deviceIp 1 (.upload true mainFirmware)) with
        | .error m => (t1, .error m)
        | .ok mainResponse =>
          if !mainResponse.ok then
            (t1, .error ("Main board firmware upload failed: " ++ toString mainResponse.status))
          else
            let t2 := t1 ++ [.wait CONFIG.FIRMWARE_PROCESSING_WAIT, .call (.reboot "main")]
            match rebootDeviceResult (env.respond deviceIp 2 (.reboot "main")) with
            | .error m => (t2, .error m)
            | .ok mainRebootResponse =>
              if !mainRebootResponse.ok then
                (t2, .error ("Main board reboot failed: " ++ toString mainRebootResponse.status))
              else
                let t3 := t2 ++ [.wait CONFIG.SEND_REBOOT_WAIT, .call (.upload false rearFirmware)]
                match uploadFirmwareResult (env.respond deviceIp 3 (.upload false rearFirmware)) with
                | .error m => (t3, .error m)
                | .ok rearResponse =>
                  if !rearResponse.ok then
                    (t3, .error ("Rear board firmware upload failed: " ++ toString rearResponse.status))
                  else
                    let t4 := t3 ++ [.wait CONFIG.FIRMWARE_PROCESSING_WAIT, .call (.reboot "rear")]
                    match rebootDeviceResult (env.respond deviceIp 4 (.reboot "rear")) with
                    | .error m => (t4, .error m)
                    | .ok rearRebootResponse =>
                      if !rearRebootResponse.ok then
                        (t4, .error ("Rear board reboot failed: " ++ toString rearRebootResponse.status))
                      else
                        let t5 := t4 ++ [.wait CONFIG.REAR_BOARD_REBOOT_WAIT, .call .infoFetch]
                        match getDeviceInfoResult env.parse (env.respond deviceIp 5 .infoFetch) with
                        | .ok _ => (t5, .ok ())
                        | .error _ => (t5, .ok ())

/-- Mock device answering every call with status 200 and an empty JSON
object body; files read back empty. -/
def envSuccess : Env :=
  { respond := fun _ _ _ => .response 200 "OK" "{}"
    parse := fun _ => some (.vobj [])
    readFile := fun _ => .ok [] }

/-- Mock device answering the main-board upload (call 1) with status 500 and
every other call with status 200. -/
def envMainUpload500 : Env :=
  { respond := fun _ n _ => if n == 1 then .response 500 "Internal Server Error" "err"
                            else .response 200 "OK" "{}"
    parse := fun _ => some (.vobj [])
    readFile := fun _ => .ok [] }

/-- Mock device answering the initial info fetch (call 0) with status 500 —
with a well-formed JSON body — and every other call with status 200. -/
def envInfo500 : Env :=
  { respond := fun _ n _ => if n == 0 then .response 500 "Internal Server Error" "{}"
                            else .response 200 "OK" "{}"
    parse := fun _ => some (.vobj [])
    readFile := fun _ => .ok [] }

/-- Mock device answering the main-board reboot (call 2) with status 500 and
every other call with status 200. -/
def envMainReboot500 : Env :=
  { respond := fun _ n _ => if n == 2 then .response 500 "Internal Server Error" "err"
                            else .response 200 "OK" "{}"
    parse := fun _ => some (.vobj [])
    readFile := fun _ => .ok [] }

/-- Parse oracle for probe scenarios: the body "bad" is malformed JSON, any
other body parses to an object whose name does not mention the vendor. -/
def parseProbeMiss : String → Option JSVal :=
  fun s => if s == "bad" then none else some (.vobj [("deviceName", .vstr "Acme Widget")])

/-- Parse oracle producing a vendor device with an explicit serial number. -/
def parseProbeHit : String → Option JSVal :=
  fun _ => some (.vobj
    [("deviceName", .vstr "KLVR Charger Pro"),
     ("firmwareVersion", .vstr "1.2.3"),
     ("serialNumber", .vstr "SN-42"),
     ("ip", .vobj [("macAddress", .vstr "aa:bb:cc")])])

/-- A concrete firmware directory listing with two main files and one rear
file. -/
def demoListing : List String :=
  ["main_20230101.signed.bin", "rear_20230101.signed.bin", "main_20230215.signed.bin"]

/-- File-system oracle serving `demoListing` with every access succeeding. -/
def demoFs : FsEnv :=
  { readdir := .ok demoListing, access := fun _ => .ok () }

/-- File-system oracle for an empty firmware directory. -/
def fsEmpty : FsEnv :=
  { readdir := .ok [], access := fun _ => .ok () }

/-- File-system oracle for a directory holding only a main firmware file. -/
def fsMainOnly : FsEnv :=
  { readdir := .ok ["main_20230101.signed.bin"], access := fun _ => .ok () }

/-- The comparison `charListLe` is reflexive. -/
theorem charListLe_refl (l : List Char) : charListLe l l = true := by
  induction l with
  | nil => rfl
  | cons a t ih => simp [charListLe, ih]

/-- The comparison `charListLe` is total. -/
theorem charListLe_total (a b : List Char) :
    charListLe a b = true ∨ charListLe b a = true := by
  induction a generalizing b with
  | nil => exact Or.inl rfl
  | cons x xs ih =>
    cases b with
    | nil => exact Or.inr rfl
    | cons y ys =>
      by_cases h1 : x.toNat < y.toNat
      · exact Or.inl (by simp [charListLe, h1])
      · by_cases h2 : y.toNat < x.toNat
        · exact Or.inr (by simp [charListLe, h2])
        · rcases ih ys with h | h
          · exact Or.inl (by simp [charListLe, h1, h2, h])
          · exact Or.inr (by simp [charListLe, h1, h2, h])

/-- The comparison `charListLe` is transitive. -/
theorem charListLe_trans : ∀ (a b c : List Char),
    charListLe a b = true → charListLe b c = true → charListLe a c = true
  | [], _, _, _, _ => rfl
  | _ :: _, [], _, hab, _ => by simp [charListLe] at hab
  | _ :: _, _ :: _, [], _, hbc => by simp [charListLe] at hbc
  | x :: xs, y :: ys, z :: zs, hab, hbc => by
    simp only [charListLe] at hab hbc ⊢
    by_cases hxy : x.toNat < y.toNat
    · by_cases hyz : y.toNat < z.toNat
      · have hxz : x.toNat < z.toNat := by omega
        simp [hxz]
      · by_cases hzy : z.toNat < y.toNat
        · rw [if_neg hyz, if_pos hzy] at hbc
          exact absurd hbc (by simp)
        · have hxz : x.toNat < z.toNat := by omega
          simp [hxz]
    · by_cases hyx : y.toNat < x.toNat
      · rw [if_neg hxy, if_pos hyx] at hab
        exact absurd hab (by simp)
      · rw [if_neg hxy, if_neg hyx] at hab
        by_cases hyz : y.toNat < z.toNat
        · have hxz : x.toNat < z.toNat := by omega
          simp [hxz]
        · by_cases hzy : z.toNat < y.toNat
          · rw [if_neg hyz, if_pos hzy] at hbc
            exact absurd hbc (by simp)
          · rw [if_neg hyz, if_neg hzy] at hbc
            have hxz : ¬ x.toNat < z.toNat := by omega
            have hzx : ¬ z.toNat < x.toNat := by omega
            rw [if_neg hxz, if_neg hzx]
            exact charListLe_trans xs ys zs hab hbc

/-- The string comparison `strLe` is reflexive. -/
theorem strLe_refl (a : String) : strLe a a = true :=
  charListLe_refl a.data

/-- The string comparison `strLe` is total. -/
theorem strLe_total (a b : String) : strLe a b = true ∨ strLe b a = true :=
  charListLe_total a.data b.data

/-- The string comparison `strLe` is transitive. -/
theorem strLe_trans (a b c : String) (hab : strLe a b = true)
    (hbc : strLe b c = true) : strLe a c = true :=
  charListLe_trans a.data b.data c.data hab hbc

instance : IsTotal String strLeRel :=
  ⟨fun a b => strLe_total a b⟩

instance : IsTrans String strLeRel :=
  ⟨fun a b c => strLe_trans a b c⟩

/-- Sorting preserves membership. -/
theorem mem_sortStrings {x : String} {l : List String} :
    x ∈ sortStrings l ↔ x ∈ l :=
  (List.perm_insertionSort strLeRel l).mem_iff

/-- The sorted list is sorted with respect to `strLeRel`. -/
theorem sorted_sortStrings (l : List String) : (sortStrings l).Sorted strLeRel :=
  List.sorted_insertionSort strLeRel l

/-- Sorting a non-empty list yields a non-empty list. -/
theorem sortStrings_ne_nil {l : List String} (hl : l ≠ []) : sortStrings l ≠ [] := by
  intro h
  apply hl
  have hlen := (List.perm_insertionSort strLeRel l).length_eq
  rw [sortStrings] at h
  rw [h] at hlen
  exact List.eq_nil_of_length_eq_zero hlen.symm

/-- The selected name of a non-empty set is a member of the set. -/
theorem latestOf_mem {l : List String} (hl : l ≠ []) : latestOf l ∈ l := by
  have hne : (sortStrings l).reverse ≠ [] := by
    simpa using sortStrings_ne_nil hl
  rw [latestOf]
  cases h : (sortStrings l).reverse with
  | nil => exact absurd h hne
  | cons a t =>
    have ha : a ∈ (sortStrings l).reverse := by rw [h]; exact List.mem_cons_self a t
    rw [List.mem_reverse, mem_sortStrings] at ha
    simpa using ha

/-- Every member of the set compares at most the selected name: the selected
name is maximal under `strLe`. -/
theorem le_latestOf {l : List String} {x : String} (hx : x ∈ l) :
    strLe x (latestOf l) = true := by
  have hl : l ≠ [] := by
    intro h
    rw [h] at hx
    exact absurd hx (List.not_mem_nil x)
  have hne : (sortStrings l).reverse ≠ [] := by
    simpa using sortStrings_ne_nil hl
  have hxs : x ∈ (sortStrings l).reverse := by
    rw [List.mem_reverse, mem_sortStrings]
    exact hx
  have hpw : ((sortStrings l).reverse).Pairwise (fun a b => strLeRel b a) := by
    rw [List.pairwise_reverse]
    exact sorted_sortStrings l
  rw [latestOf]
  cases h : (sortStrings l).reverse with
  | nil => exact absurd h hne
  | cons a t =>
    rw [h] at hxs hpw
    rcases List.mem_cons.mp hxs with rfl | hxt
    · simpa using strLe_refl x
    · have := (List.pairwise_cons.mp hpw).1 x hxt
      simpa using this

/-- C8: for every firmware payload the uploader sets the Content-Length
header to exactly the byte length of the payload and writes the payload as
the body; and for every HTTP response status it resolves (never rejects) with
an outcome whose ok field is true exactly when the status is 200. -/
theorem C8_upload_content_length_and_ok (ip : String) (fw : List Nat)
    (isMainBoard : Bool) (st : Nat) (stx d : String) :
    (uploadFirmwareRequest ip fw isMainBoard).1.contentLength = some fw.length ∧
    (uploadFirmwareRequest ip fw isMainBoard).2 = fw ∧
    ∃ o, uploadFirmwareResult (.response st stx d) = .ok o ∧
      o.status = st ∧ (o.ok = true ↔ st = 200) := by
  refine ⟨rfl, rfl, ⟨_, rfl, rfl, ?_⟩⟩
  simp [beq_iff_eq]

/-- C9 counterexample: for the board name "x" (1 byte) the reboot request
still carries the hardcoded Content-Length of 4, which is not the byte length
of the body actually written. -/
theorem C9_counterexample_hardcoded_length :
    (rebootDeviceRequest "10.0.0.1" "x").2 = "x" ∧
    (rebootDeviceRequest "10.0.0.1" "x").1.contentLength = some 4 ∧
    "x".utf8ByteSize = 1 ∧
    (rebootDeviceRequest "10.0.0.1" "x").1.contentLength ≠
      some ("x".utf8ByteSize) := by
  refine ⟨rfl, rfl, rfl, ?_⟩
  decide

/-- C9 amended: for every board name, the reboot request POSTs to the reboot
endpoint with the board name as the board query parameter and as the literal
body, and its Content-Length header is the constant 4 — which equals the byte
length of the body exactly when the board name is 4 bytes long (as "main" and
"rear" are). -/
theorem C9_amended_reboot_request_shape (ip board : String) :
    (rebootDeviceRequest ip board).1.path =
      CONFIG.ENDPOINTS.REBOOT ++ "?board=" ++ board ∧
    (rebootDeviceRequest ip board).1.method = "POST" ∧
    (rebootDeviceRequest ip board).2 = board ∧
    (rebootDeviceRequest ip board).1.contentLength = some 4 ∧
    (board.utf8ByteSize = 4 →
      (rebootDeviceRequest ip board).1.contentLength = some board.utf8ByteSize) := by
  refine ⟨rfl, rfl, rfl, rfl, ?_⟩
  intro h
  rw [h]
  rfl

/-- Witness for the amended C9 at the concrete board name "main". -/
theorem C9_amended_reboot_request_shape_witness :
    (rebootDeviceRequest "10.0.0.1" "main").1.path =
      CONFIG.ENDPOINTS.REBOOT ++ "?board=" ++ "main" ∧
    (rebootDeviceRequest "10.0.0.1" "main").2 = "main" ∧
    (rebootDeviceRequest "10.0.0.1" "main").1.contentLength =
      some ("main".utf8ByteSize) := by
  obtain ⟨hp, _hm, hb, _hc, himp⟩ := C9_amended_reboot_request_shape "10.0.0.1" "main"
  exact ⟨hp, hb, himp (by decide)⟩

/-- C5 counterexample: on the empty directory listing the rear filtered set
is empty, yet the locator error identifies only "main" — its message does not
contain "rear" — so the claim read per category fails for the rear half. -/
theorem C5_counterexample_both_empty :
    ([] : List String).filter isRearFirmwareName = [] ∧
    findLatestFirmwareFiles fsEmpty "fw" =
      .error "Failed to find firmware files: No main firmware files found in firmware/ directory" ∧
    containsStr
      "Failed to find firmware files: No main firmware files found in firmware/ directory"
      "rear" = false := by
  refine ⟨rfl, rfl, by decide⟩

/-- C5 amended: when the main filtered set is empty the locator fails with an
error identifying "main"; when the main set is non-empty and the rear set is
empty it fails with an error identifying "rear"; in both cases no bundle is
returned (when both sets are empty, the error identifies "main"). -/
theorem C5_amended_empty_category_error (fs : FsEnv) (dir : String)
    (files : List String) (hread : fs.readdir = .ok files) :
    (files.filter isMainFirmwareName = [] →
      findLatestFirmwareFiles fs dir =
        .error "Failed to find firmware files: No main firmware files found in firmware/ directory" ∧
      containsStr
        "Failed to find firmware files: No main firmware files found in firmware/ directory"
        "main" = true) ∧
    (files.filter isMainFirmwareName ≠ [] →
      files.filter isRearFirmwareName = [] →
      findLatestFirmwareFiles fs dir =
        .error "Failed to find firmware files: No rear firmware files found in firmware/ directory" ∧
      containsStr
        "Failed to find firmware files: No rear firmware files found in firmware/ directory"
        "rear" = true) := by
  constructor
  · intro hm
    refine ⟨?_, by decide⟩
    rw [findLatestFirmwareFiles, hread]
    simp [hm, sortStrings]
  · intro hm hr
    refine ⟨?_, by decide⟩
    rw [findLatestFirmwareFiles, hread]
    have hmne : List.insertionSort strLeRel (files.filter isMainFirmwareName) ≠ [] :=
      sortStrings_ne_nil hm
    simp [hr, sortStrings, hmne]

/-- Witness for the amended C5: a listing with a main file and no rear file
takes the rear branch, and the empty listing takes the main branch. -/
theorem C5_amended_empty_category_error_witness :
    (findLatestFirmwareFiles fsEmpty "fw" =
      .error "Failed to find firmware files: No main firmware files found in firmware/ directory" ∧
     containsStr
       "Failed to find firmware files: No main firmware files found in firmware/ directory"
       "main" = true) ∧
    (findLatestFirmwareFiles fsMainOnly "fw" =
      .error "Failed to find firmware files: No rear firmware files found in firmware/ directory" ∧
     containsStr
       "Failed to find firmware files: No rear firmware files found in firmware/ directory"
       "rear" = true) := by
  constructor
  · exact (C5_amended_empty_category_error fsEmpty "fw" [] rfl).1 rfl
  · exact (C5_amended_empty_category_error fsMainOnly "fw"
      ["main_20230101.signed.bin"] rfl).2 (by decide) (by decide)

/-- C4: whenever both filtered sets are non-empty (and the chosen files are
accessible), the locator returns the bundle built from the lexicographically
maximal filename of each filtered set — maximal in the pure string ordering
`strLe`, as witnessed by membership and an upper bound over the whole set. -/
theorem C4_locator_selects_max (fs : FsEnv) (dir : String) (files : List String)
    (hread : fs.readdir = .ok files)
    (hm : files.filter isMainFirmwareName ≠ [])
    (hr : files.filter isRearFirmwareName ≠ [])
    (haccm : fs.access (pathJoin dir (latestOf (files.filter isMainFirmwareName))) = .ok ())
    (haccr : fs.access (pathJoin dir (latestOf (files.filter isRearFirmwareName))) = .ok ()) :
    findLatestFirmwareFiles fs dir = .ok
      { main := pathJoin dir (latestOf (files.filter isMainFirmwareName))
        rear := pathJoin dir (latestOf (files.filter isRearFirmwareName)) } ∧
    latestOf (files.filter isMainFirmwareName) ∈ files.filter isMainFirmwareName ∧
    (∀ x ∈ files.filter isMainFirmwareName,
      strLe x (latestOf (files.filter isMainFirmwareName)) = true) ∧
    latestOf (files.filter isRearFirmwareName) ∈ files.filter isRearFirmwareName ∧
    (∀ x ∈ files.filter isRearFirmwareName,
      strLe x (latestOf (files.filter isRearFirmwareName)) = true) := by
  refine ⟨?_, latestOf_mem hm, fun x hx => le_latestOf hx,
    latestOf_mem hr, fun x hx => le_latestOf hx⟩
  rw [findLatestFirmwareFiles, hread]
  have h1 : List.insertionSort strLeRel (files.filter isMainFirmwareName) ≠ [] :=
    sortStrings_ne_nil hm
  have h2 : List.insertionSort strLeRel (files.filter isRearFirmwareName) ≠ [] :=
    sortStrings_ne_nil hr
  simp only [latestOf, sortStrings] at haccm haccr ⊢
  simp [h1, h2] at haccm haccr ⊢
  simp [haccm, haccr]

/-- Witness for C4 at a concrete listing: of the two main files the
lexicographically greater one is selected. -/
theorem C4_locator_selects_max_witness :
    findLatestFirmwareFiles demoFs "fw" = .ok
      { main := "fw/main_20230215.signed.bin", rear := "fw/rear_20230101.signed.bin" } ∧
    latestOf (demoListing.filter isMainFirmwareName) = "main_20230215.signed.bin" ∧
    strLe "main_20230101.signed.bin" "main_20230215.signed.bin" = true := by
  obtain ⟨hres, _hmem, hmax, _, _⟩ := C4_locator_selects_max demoFs "fw" demoListing
    rfl (by decide) (by decide) rfl rfl
  refine ⟨?_, by rfl, hmax _ (by decide)⟩
  rw [hres]
  rfl

/-- A falsy left operand of `||` yields the right operand. -/
theorem jsOrV_of_falsy {a : Option JSVal} {b : JSVal} (h : truthy a = false) :
    jsOrV a b = b := by
  cases a with
  | none => rfl
  | some v =>
    simp only [truthy] at h
    simp [jsOrV, h]

/-- A truthy left operand of `||` yields itself. -/
theorem jsOrV_of_truthy {v b : JSVal} (h : truthyV v = true) :
    jsOrV (some v) b = v := by
  simp [jsOrV, h]

/-- C6: the probe request carries a 3000 ms timeout, and the prober resolves
null — never rejecting — on a connection error, on a timeout, on a body that
fails to parse as JSON, on a parsed body whose resolved name field is falsy,
and on a parsed body whose name string does not contain the vendor substring
case-insensitively. -/
theorem C6_prober_never_throws (parse : String → Option JSVal) (ip : String) :
    (testConnectionRequest ip).timeout = some 3000 ∧
    testDeviceConnection parse ip .netError = none ∧
    testDeviceConnection parse ip .timeout = none ∧
    (∀ body, parse body = none →
      testDeviceConnection parse ip (.response body) = none) ∧
    (∀ body info d1 d2, parse body = some info →
      info.get "deviceName" = .ok d1 → info.get "name" = .ok d2 →
      truthy (jsOr d1 d2) = false →
      testDeviceConnection parse ip (.response body) = none) ∧
    (∀ body info d1 d2 s, parse body = some info →
      info.get "deviceName" = .ok d1 → info.get "name" = .ok d2 →
      jsOr d1 d2 = some (.vstr s) →
      containsStr (strToLower s) "klvr" = false →
      testDeviceConnection parse ip (.response body) = none) := by
  refine ⟨rfl, rfl, rfl, ?_, ?_, ?_⟩
  · intro body h
    simp [testDeviceConnection, h]
  · intro body info d1 d2 hp hd1 hd2 hfalsy
    simp [testDeviceConnection, hp, probeCore, hd1, hd2, hfalsy]
  · intro body info d1 d2 s hp hd1 hd2 hor hcontains
    by_cases hs : s = ""
    · subst hs
      simp [testDeviceConnection, hp, probeCore, hd1, hd2, hor, truthy, truthyV]
    · simp [testDeviceConnection, hp, probeCore, hd1, hd2, hor, truthy, truthyV,
        hs, toLowerCaseE, hcontains]

/-- Witness for C6: concrete null results for a network error, a timeout, a
malformed body and a non-vendor device name. -/
theorem C6_prober_never_throws_witness :
    testDeviceConnection parseProbeMiss "10.0.0.7" .netError = none ∧
    testDeviceConnection parseProbeMiss "10.0.0.7" .timeout = none ∧
    testDeviceConnection parseProbeMiss "10.0.0.7" (.response "bad") = none ∧
    testDeviceConnection parseProbeMiss "10.0.0.7" (.response "ok") = none := by
  obtain ⟨_, hne, htm, hpar, _, hname⟩ := C6_prober_never_throws parseProbeMiss "10.0.0.7"
  exact ⟨hne, htm, hpar "bad" rfl,
    hname "ok" (.vobj [("deviceName", .vstr "Acme Widget")])
      (some (.vstr "Acme Widget")) none "Acme Widget"
      rfl rfl rfl rfl (by decide)⟩

/-- C7: on a parsed body whose resolved name (deviceName first, then name)
is a string containing the vendor substring in any letter case, the prober
resolves a populated identity whose serial number tries, in priority order,
the explicit serialNumber field, then the nested MAC-address sub-field, then
the literal "Unknown". -/
theorem C7_prober_accepts (parse : String → Option JSVal) (ip : String)
    (body s : String) (info : JSVal) (d1 d2 fw sn ipf : Option JSVal)
    (hp : parse body = some info)
    (hd1 : info.get "deviceName" = .ok d1)
    (hd2 : info.get "name" = .ok d2)
    (hor : jsOr d1 d2 = some (.vstr s))
    (hcontains : containsStr (strToLower s) "klvr" = true)
    (hfw : info.get "firmwareVersion" = .ok fw)
    (hsn : info.get "serialNumber" = .ok sn)
    (hipf : info.get "ip" = .ok ipf) :
    testDeviceConnection parse ip (.response body) = some
      { ip := ip
        deviceName := .vstr s
        firmwareVersion := fw
        serialNumber := jsOrV sn (jsOrV (optGet ipf "macAddress") (.vstr "Unknown")) } ∧
    (∀ v, sn = some v → truthyV v = true →
      jsOrV sn (jsOrV (optGet ipf "macAddress") (.vstr "Unknown")) = v) ∧
    (truthy sn = false → ∀ m, optGet ipf "macAddress" = some m → truthyV m = true →
      jsOrV sn (jsOrV (optGet ipf "macAddress") (.vstr "Unknown")) = m) ∧
    (truthy sn = false → truthy (optGet ipf "macAddress") = false →
      jsOrV sn (jsOrV (optGet ipf "macAddress") (.vstr "Unknown")) = .vstr "Unknown") := by
  have hs : s ≠ "" := by
    intro h
    rw [h] at hcontains
    exact absurd hcontains (by decide)
  refine ⟨?_, ?_, ?_, ?_⟩
  · simp [testDeviceConnection, hp, probeCore, hd1, hd2, hor, truthy, truthyV,
      hs, toLowerCaseE, hcontains, hfw, hsn, hipf]
  · intro v hv htv
    subst hv
    rw [jsOrV_of_truthy htv]
  · intro hsn0 m hm htm
    rw [jsOrV_of_falsy hsn0, hm, jsOrV_of_truthy htm]
  · intro hsn0 hmac
    rw [jsOrV_of_falsy hsn0, jsOrV_of_falsy hmac]

/-- Witness for C7: a vendor device body with an explicit serial number. -/
theorem C7_prober_accepts_witness :
    testDeviceConnection parseProbeHit "10.0.0.7" (.response "{}") = some
      { ip := "10.0.0.7"
        deviceName := .vstr "KLVR Charger Pro"
        firmwareVersion := some (.vstr "1.2.3")
        serialNumber := jsOrV (some (.vstr "SN-42"))
          (jsOrV (optGet (some (.vobj [("macAddress", .vstr "aa:bb:cc")])) "macAddress")
            (.vstr "Unknown")) } ∧
    jsOrV (some (.vstr "SN-42"))
      (jsOrV (optGet (some (.vobj [("macAddress", .vstr "aa:bb:cc")])) "macAddress")
        (.vstr "Unknown")) = .vstr "SN-42" := by
  refine ⟨?_, rfl⟩
  exact (C7_prober_accepts parseProbeHit "10.0.0.7" "{}" "KLVR Charger Pro"
    (.vobj
      [("deviceName", .vstr "KLVR Charger Pro"),
       ("firmwareVersion", .vstr "1.2.3"),
       ("serialNumber", .vstr "SN-42"),
       ("ip", .vobj [("macAddress", .vstr "aa:bb:cc")])])
    (some (.vstr "KLVR Charger Pro")) none (some (.vstr "1.2.3"))
    (some (.vstr "SN-42")) (some (.vobj [("macAddress", .vstr "aa:bb:cc")]))
    rfl rfl rfl rfl (by decide) rfl rfl rfl).1

/-- C1: when every required call is answered with status 200 (and the info
body parses), the orchestrator performs exactly the sequence info fetch,
upload(main), 7000 ms wait, reboot(main), 1500 ms wait, upload(rear), 7000 ms
wait, reboot(rear), 20000 ms wait, best-effort info fetch — in that order
with no other device call interleaved — and succeeds whatever the final
best-effort fetch returns. -/
theorem C1_success_sequence (env : Env) (ip mp rp : String)
    (stx0 b0 : String) (info0 : JSVal) (fv0 : Option JSVal)
    (mfw rfw : List Nat) (stx1 b1 stx2 b2 stx3 b3 stx4 b4 : String)
    (h0 : env.respond ip 0 .infoFetch = .response 200 stx0 b0)
    (hp0 : env.parse b0 = some info0)
    (hfv : info0.get "firmwareVersion" = .ok fv0)
    (hm : env.readFile mp = .ok mfw)
    (hr : env.readFile rp = .ok rfw)
    (h1 : env.respond ip 1 (.upload true mfw) = .response 200 stx1 b1)
    (h2 : env.respond ip 2 (.reboot "main") = .response 200 stx2 b2)
    (h3 : env.respond ip 3 (.upload false rfw) = .response 200 stx3 b3)
    (h4 : env.respond ip 4 (.reboot "rear") = .response 200 stx4 b4) :
    executeFirmwareUpdate env ip mp rp =
      ([.call .infoFetch, .call (.upload true mfw), .wait 7000,
        .call (.reboot "main"), .wait 1500, .call (.upload false rfw),
        .wait 7000, .call (.reboot "rear"), .wait 20000, .call .infoFetch],
       .ok ()) := by
  have hi0 : getDeviceInfoResult env.parse (env.respond ip 0 .infoFetch) = .ok info0 := by
    rw [h0]
    simp [getDeviceInfoResult, hp0, hfv]
  have hu1 : uploadFirmwareResult (env.respond ip 1 (.upload true mfw)) =
      .ok { ok := true, status := 200, statusText := stx1, data := b1 } := by
    rw [h1]
    simp [uploadFirmwareResult]
  have hb2 : rebootDeviceResult (env.respond ip 2 (.reboot "main")) =
      .ok { ok := true, status := 200, statusText := stx2, data := b2 } := by
    rw [h2]
    simp [rebootDeviceResult]
  have hu3 : uploadFirmwareResult (env.respond ip 3 (.upload false rfw)) =
      .ok { ok := true, status := 200, statusText := stx3, data := b3 } := by
    rw [h3]
    simp [uploadFirmwareResult]
  have hb4 : rebootDeviceResult (env.respond ip 4 (.reboot "rear")) =
      .ok { ok := true, status := 200, statusText := stx4, data := b4 } := by
    rw [h4]
    simp [rebootDeviceResult]
  simp only [executeFirmwareUpdate, hi0, hm, hr, hu1, hb2, hu3, hb4]
  cases getDeviceInfoResult env.parse (env.respond ip 5 .infoFetch) <;>
    simp [CONFIG]

/-- Witness for C1 at the all-200 mock device. -/
theorem C1_success_sequence_witness :
    executeFirmwareUpdate envSuccess "10.0.0.1" "m" "r" =
      ([.call .infoFetch, .call (.upload true []), .wait 7000,
        .call (.reboot "main"), .wait 1500, .call (.upload false []),
        .wait 7000, .call (.reboot "rear"), .wait 20000, .call .infoFetch],
       .ok ()) :=
  C1_success_sequence envSuccess "10.0.0.1" "m" "r" "OK" "{}" (.vobj []) none
    [] [] "OK" "{}" "OK" "{}" "OK" "{}" "OK" "{}"
    rfl rfl rfl rfl rfl rfl rfl rfl rfl

/-- C2: when the main-board upload is answered with a status other than 200,
the orchestrator stops after exactly the info fetch and the main upload —
never invoking reboot(main), upload(rear), reboot(rear) or any later step —
and rejects with the message naming the main upload and the status. -/
theorem C2_main_upload_failure_aborts (env : Env) (ip mp rp : String)
    (stx0 b0 : String) (info0 : JSVal) (fv0 : Option JSVal)
    (mfw rfw : List Nat) (st : Nat) (stx1 b1 : String)
    (h0 : env.respond ip 0 .infoFetch = .response 200 stx0 b0)
    (hp0 : env.parse b0 = some info0)
    (hfv : info0.get "firmwareVersion" = .ok fv0)
    (hm : env.readFile mp = .ok mfw)
    (hr : env.readFile rp = .ok rfw)
    (h1 : env.respond ip 1 (.upload true mfw) = .response st stx1 b1)
    (hst : st ≠ 200) :
    executeFirmwareUpdate env ip mp rp =
      ([.call .infoFetch, .call (.upload true mfw)],
       .error ("Main board firmware upload failed: " ++ toString st)) := by
  have hi0 : getDeviceInfoResult env.parse (env.respond ip 0 .infoFetch) = .ok info0 := by
    rw [h0]
    simp [getDeviceInfoResult, hp0, hfv]
  have hu1 : uploadFirmwareResult (env.respond ip 1 (.upload true mfw)) =
      .ok { ok := st == 200, status := st, statusText := stx1, data := b1 } := by
    rw [h1]
    rfl
  have hok : (st == 200) = false := by
    simpa using hst
  simp only [executeFirmwareUpdate, hi0, hm, hr, hu1]
  simp [hok]

/-- Witness for C2 at the mock device answering the main upload with 500:
the reported message mentions the literal text with status 500. -/
theorem C2_main_upload_failure_aborts_witness :
    executeFirmwareUpdate envMainUpload500 "10.0.0.1" "m" "r" =
      ([.call .infoFetch, .call (.upload true [])],
       .error "Main board firmware upload failed: 500") :=
  C2_main_upload_failure_aborts envMainUpload500 "10.0.0.1" "m" "r" "OK" "{}"
    (.vobj []) none [] [] 500 "Internal Server Error" "err"
    rfl rfl rfl rfl rfl rfl (by decide)

/-- C3 counterexample: a device answering the initial info fetch with status
500 (ok would be false) and every later call with 200 — the orchestrator does
not abort at the info transition and the whole update succeeds, because the
info fetch never inspects the HTTP status. -/
theorem C3_counterexample_info_status_not_checked :
    envInfo500.respond "10.0.0.1" 0 .infoFetch =
      .response 500 "Internal Server Error" "{}" ∧
    (executeFirmwareUpdate envInfo500 "10.0.0.1" "m" "r").2 = .ok () :=
  ⟨rfl, rfl⟩

/-- C3 amended: each of the four upload and reboot transitions must be
answered with status exactly 200, else the orchestrator aborts with a
descriptive error naming the failed step and the status; the initial
info-fetch transition does not inspect the HTTP status (with all four later
calls at 200 the update succeeds whatever the info status was). -/
theorem C3_amended_required_call_status (env : Env) (ip mp rp : String)
    (st0 : Nat) (stx0 b0 : String) (info0 : JSVal) (fv0 : Option JSVal)
    (mfw rfw : List Nat) (st1 st2 st3 st4 : Nat)
    (stx1 b1 stx2 b2 stx3 b3 stx4 b4 : String)
    (h0 : env.respond ip 0 .infoFetch = .response st0 stx0 b0)
    (hp0 : env.parse b0 = some info0)
    (hfv : info0.get "firmwareVersion" = .ok fv0)
    (hm : env.readFile mp = .ok mfw)
    (hr : env.readFile rp = .ok rfw)
    (h1 : env.respond ip 1 (.upload true mfw) = .response st1 stx1 b1)
    (h2 : env.respond ip 2 (.reboot "main") = .response st2 stx2 b2)
    (h3 : env.respond ip 3 (.upload false rfw) = .response st3 stx3 b3)
    (h4 : env.respond ip 4 (.reboot "rear") = .response st4 stx4 b4) :
    (st1 ≠ 200 → (executeFirmwareUpdate env ip mp rp).2 =
      .error ("Main board firmware upload failed: " ++ toString st1)) ∧
    (st1 = 200 → st2 ≠ 200 → (executeFirmwareUpdate env ip mp rp).2 =
      .error ("Main board reboot failed: " ++ toString st2)) ∧
    (st1 = 200 → st2 = 200 → st3 ≠ 200 → (executeFirmwareUpdate env ip mp rp).2 =
      .error ("Rear board firmware upload failed: " ++ toString st3)) ∧
    (st1 = 200 → st2 = 200 → st3 = 200 → st4 ≠ 200 →
      (executeFirmwareUpdate env ip mp rp).2 =
        .error ("Rear board reboot failed: " ++ toString st4)) ∧
    (st1 = 200 → st2 = 200 → st3 = 200 → st4 = 200 →
      (executeFirmwareUpdate env ip mp rp).2 = .ok ()) := by
  have hi0 : getDeviceInfoResult env.parse (env.respond ip 0 .infoFetch) = .ok info0 := by
    rw [h0]
    simp [getDeviceInfoResult, hp0, hfv]
  have hu1 : uploadFirmwareResult (env.respond ip 1 (.upload true mfw)) =
      .ok { ok := st1 == 200, status := st1, statusText := stx1, data := b1 } := by
    rw [h1]
    rfl
  have hb2 : rebootDeviceResult (env.respond ip 2 (.reboot "main")) =
      .ok { ok := st2 == 200, status := st2, statusText := stx2, data := b2 } := by
    rw [h2]
    rfl
  have hu3 : uploadFirmwareResult (env.respond ip 3 (.upload false rfw)) =
      .ok { ok := st3 == 200, status := st3, statusText := stx3, data := b3 } := by
    rw [h3]
    rfl
  have hb4 : rebootDeviceResult (env.respond ip 4 (.reboot "rear")) =
      .ok { ok := st4 == 200, status := st4, statusText := stx4, data := b4 } := by
    rw [h4]
    rfl
  refine ⟨?_, ?_, ?_, ?_, ?_⟩
  · intro hne1
    have e1 : (st1 == 200) = false := by simpa using hne1
    simp only [executeFirmwareUpdate, hi0, hm, hr, hu1]
    simp [e1]
  · intro he1 hne2
    have e1 : (st1 == 200) = true := by simpa using he1
    have e2 : (st2 == 200) = false := by simpa using hne2
    simp only [executeFirmwareUpdate, hi0, hm, hr, hu1, hb2]
    simp [e1, e2]
  · intro he1 he2 hne3
    have e1 : (st1 == 200) = true := by simpa using he1
    have e2 : (st2 == 200) = true := by simpa using he2
    have e3 : (st3 == 200) = false := by simpa using hne3
    simp only [executeFirmwareUpdate, hi0, hm, hr, hu1, hb2, hu3]
    simp [e1, e2, e3]
  · intro he1 he2 he3 hne4
    have e1 : (st1 == 200) = true := by simpa using he1
    have e2 : (st2 == 200) = true := by simpa using he2
    have e3 : (st3 == 200) = true := by simpa using he3
    have e4 : (st4 == 200) = false := by simpa using hne4
    simp only [executeFirmwareUpdate, hi0, hm, hr, hu1, hb2, hu3, hb4]
    simp [e1, e2, e3, e4]
  · intro he1 he2 he3 he4
    have e1 : (st1 == 200) = true := by simpa using he1
    have e2 : (st2 == 200) = true := by simpa using he2
    have e3 : (st3 == 200) = true := by simpa using he3
    have e4 : (st4 == 200) = true := by simpa using he4
    simp only [executeFirmwareUpdate, hi0, hm, hr, hu1, hb2, hu3, hb4]
    cases getDeviceInfoResult env.parse (env.respond ip 5 .infoFetch) <;>
      simp [e1, e2, e3, e4]

/-- Witness for the amended C3: the mock device failing the main reboot with
500 aborts with the message naming the main reboot. -/
theorem C3_amended_required_call_status_witness :
    (executeFirmwareUpdate envMainReboot500 "10.0.0.1" "m" "r").2 =
      .error "Main board reboot failed: 500" := by
  have h := C3_amended_required_call_status envMainReboot500 "10.0.0.1" "m" "r"
    200 "OK" "{}" (.vobj []) none [] [] 200 500 200 200
    "OK" "{}" "Internal Server Error" "err" "OK" "{}" "OK" "{}"
    rfl rfl rfl rfl rfl rfl rfl rfl rfl
  exact h.2.1 rfl (by decide)

/-- C10: every reboot call the orchestrator ever issues carries the board
name "main" or "rear", so the hardcoded Content-Length of 4 matches the byte
length of the body actually written in every issued reboot request. -/
theorem C10_issued_reboot_boards (env : Env) (ip mp rp b : String)
    (hmem : Event.call (.reboot b) ∈ (executeFirmwareUpdate env ip mp rp).1) :
    (b = "main" ∨ b = "rear") ∧
    (rebootDeviceRequest ip b).1.contentLength =
      some ((rebootDeviceRequest ip b).2.utf8ByteSize) := by
  have hb : b = "main" ∨ b = "rear" := by
    simp only [executeFirmwareUpdate] at hmem
    repeat' split at hmem
    all_goals simp at hmem
    all_goals tauto
  refine ⟨hb, ?_⟩
  rcases hb with rfl | rfl <;> rfl

/-- Witness for C10: the success trace contains the main-board reboot call. -/
theorem C10_issued_reboot_boards_witness :
    Event.call (.reboot "main") ∈
      (executeFirmwareUpdate envSuccess "10.0.0.1" "m" "r").1 ∧
    (("main" = "main" ∨ "main" = "rear") ∧
      (rebootDeviceRequest "10.0.0.1" "main").1.contentLength =
        some ((rebootDeviceRequest "10.0.0.1" "main").2.utf8ByteSize)) := by
  have hmem : Event.call (.reboot "main") ∈
      (executeFirmwareUpdate envSuccess "10.0.0.1" "m" "r").1 := by decide
  exact ⟨hmem, C10_issued_reboot_boards envSuccess "10.0.0.1" "m" "r" "main" hmem⟩

end FirmwareUpdater
